import Mathlib

/-
Shallow embedding of `algo/naive_elevator/q_learning_elevator/q_learning_elevator.py`
(class `QLearningElevatorAlgo`).

Numeric conventions: Python floats (timestamps, epsilon, learning rate, Q values)
are modelled as rationals; Python ints (floors, actions, state components) as
integers.  Python dicts (`rider_registration_ts`) and `collections.Counter`
objects are modelled as insertion-ordered association lists, because the source
relies on dict iteration order (`Counter.values()`).
-/

namespace QElevator

/-- Task kinds, from `TaskType` in `algo_interface` (only the two members the
source uses). -/
inductive TaskType where
  | PICKUP
  | DROPOFF
deriving DecidableEq

/-- Request directions, from `UpDown` in `algo_interface`. -/
inductive UpDown where
  | UP
  | DOWN
deriving DecidableEq

/-- The `DirectionTrend` enum of the source (lines 27-30). -/
inductive DirectionTrend where
  | MOSTLY_UP
  | MOSTLY_DOWN
  | UNDETERMINED
deriving DecidableEq

/-- The numeric `.value` of each `DirectionTrend` enum member. -/
def DirectionTrend.value : DirectionTrend → ℕ
  | .MOSTLY_UP => 0
  | .MOSTLY_DOWN => 1
  | .UNDETERMINED => 2

/-- Source line 12. -/
def MAX_FLOOR_TASKS_TO_COUNT : ℕ := 3

/-- Source line 13. -/
def REQUESTS_TO_CONSIDER_FOR_DIRECTION_TREND : ℕ := 10

/-- Source line 20. -/
def DISCOUNT : ℚ := 0.99

/-- Source line 23. -/
def ROUND_TO_START_LEARNING_DECAY : ℕ := 0

/-- Source line 24. -/
def ROUND_TO_END_LEARNING_DECAY : ℕ := 10000

/-- The inner `Task` class (source lines 47-51). -/
structure Task where
  rider_id : ℕ
  floor : ℤ
  task_type : TaskType
deriving DecidableEq

/-- One entry of `self.request_direction_times` (a dict
`{"timestamp": ..., "direction": ...}`, source lines 217-220). -/
structure DirectionRecord where
  timestamp : ℚ
  direction : UpDown
deriving DecidableEq

/-- The mutable state of a `QLearningElevatorAlgo` instance.
`previous_state_and_action` and `last_action_ts` are written only together
(source lines 200-201) and are both `None` after `__init__`, so the pair is
modelled as a single `Option` (`pending`): `some (prev_state_and_action, ts)`
or `none`.  `current_timestamp` and `elevator_location` are supplied by the
algo interface and are read-only here.  The numpy `q_table` array is modelled
as a total function from full index tuples (state ++ [action]) to values. -/
structure AlgoState where
  max_floor : ℕ
  current_timestamp : ℚ
  elevator_location : ℚ
  tasks : List Task
  request_direction_times : List DirectionRecord
  pending : Option (List ℤ × ℚ)
  rider_registration_ts : List (ℕ × ℚ)
  q_table : List ℤ → ℚ
  episode : ℕ
  epsilon : ℚ
  learning_rate : ℚ

/-- The two points of randomness in `_get_next_floor_tasks`:
`draw` models the `np.random.random()` sample (line 180) and `pick` models
`np.random.choice` over the candidate floor-index list (line 186). -/
structure Oracle where
  draw : ℚ
  pick : List ℤ → ℤ

/-- Python's `round` (banker's rounding: ties go to the even integer). -/
def pyRound (x : ℚ) : ℤ :=
  let f := Rat.floor x
  if x - f < 1/2 then f
  else if 1/2 < x - f then f + 1
  else if f % 2 = 0 then f else f + 1

/-- `_discreet_elevator_location` (source lines 104-108): round the elevator's
location to the nearest integer floor. -/
def _discreet_elevator_location (elevator_location : ℚ) : ℤ :=
  pyRound elevator_location

/-- Stable insertion of a record into a list sorted by ascending timestamp:
the record goes before the first strictly-later-or-equal element it does not
precede, keeping the original order of equal timestamps. -/
def orderedInsertTS (a : DirectionRecord) : List DirectionRecord → List DirectionRecord
  | [] => [a]
  | b :: l => if a.timestamp ≤ b.timestamp then a :: b :: l else b :: orderedInsertTS a l

/-- Python's `sorted(..., key=lambda a: a["timestamp"], reverse=False)`:
a stable sort by ascending timestamp (source lines 115-116). -/
def sortByTimestamp : List DirectionRecord → List DirectionRecord
  | [] => []
  | a :: l => orderedInsertTS a (sortByTimestamp l)

/-- `_direction_trend` (source lines 110-130).  Note the slice on line 119 is
`directions_list[:-REQUESTS_TO_CONSIDER_FOR_DIRECTION_TREND]`, i.e. all
elements EXCEPT the last `REQUESTS_TO_CONSIDER_FOR_DIRECTION_TREND`; for a
list of length at most that constant the slice is empty (matched by the
truncated natural subtraction in `List.take`).  The float comparison
`up / 10 >= 0.7` is equivalent to the exact rational comparison for integer
`up`, since `7/10` rounds to the same double as the literal `0.7`. -/
def _direction_trend (request_direction_times : List DirectionRecord) : DirectionTrend :=
  let directions_list := (sortByTimestamp request_direction_times).map fun x => x.direction
  let considered := directions_list.take
    (directions_list.length - REQUESTS_TO_CONSIDER_FOR_DIRECTION_TREND)
  let up := (considered.filter fun d => decide (d = UpDown.UP)).length
  let down := (considered.filter fun d => decide (¬ d = UpDown.UP)).length
  if ((up : ℚ) / (REQUESTS_TO_CONSIDER_FOR_DIRECTION_TREND : ℚ) ≥ 0.7) then
    DirectionTrend.MOSTLY_UP
  else if ((down : ℚ) / (REQUESTS_TO_CONSIDER_FOR_DIRECTION_TREND : ℚ) ≥ 0.7) then
    DirectionTrend.MOSTLY_DOWN
  else
    DirectionTrend.UNDETERMINED

/-- Membership of a key in a Python-dict model. -/
def counterMemKey (c : List (ℤ × ℕ)) (k : ℤ) : Bool :=
  c.any fun p => decide (p.1 = k)

/-- One counting step of `collections.Counter`: an existing key keeps its
position, a new key is appended (dicts preserve insertion order). -/
def counterIncr (c : List (ℤ × ℕ)) (k : ℤ) : List (ℤ × ℕ) :=
  if counterMemKey c k then c.map fun p => if p.1 = k then (p.1, p.2 + 1) else p
  else c ++ [(k, 1)]

/-- `collections.Counter(ks)`: keys appear in first-occurrence order. -/
def pyCounter (ks : List ℤ) : List (ℤ × ℕ) :=
  ks.foldl counterIncr []

/-- Python dict item assignment `c[k] = v`: an existing key keeps its position,
a new key is appended at the end. -/
def counterSet (c : List (ℤ × ℕ)) (k : ℤ) (v : ℕ) : List (ℤ × ℕ) :=
  if counterMemKey c k then c.map fun p => if p.1 = k then (p.1, v) else p
  else c ++ [(k, v)]

/-- Python dict lookup `c[k]` (for a Counter, missing keys read as 0). -/
def counterGet (c : List (ℤ × ℕ)) (k : ℤ) : ℕ :=
  match c.find? fun p => decide (p.1 = k) with
  | some p => p.2
  | none => 0

/-- The loop of `_get_state` over `range(self.max_floor)` (source lines
145-154), applied to one counter: floors absent from the counter are added
with count 0, present floors are clamped to `MAX_FLOOR_TASKS_TO_COUNT`.
The source interleaves this loop over the pickup and the dropoff counters;
the two counters are independent, so applying the loop to each separately is
equivalent. -/
def fillAndClampCounter (c : List (ℤ × ℕ)) (max_floor : ℕ) : List (ℤ × ℕ) :=
  (List.range max_floor).foldl (fun acc floor =>
    if counterMemKey acc (floor : ℤ) then
      counterSet acc (floor : ℤ) (min (counterGet acc (floor : ℤ)) MAX_FLOOR_TASKS_TO_COUNT)
    else
      counterSet acc (floor : ℤ) 0) c

/-- `_get_state` (source lines 132-159): builds the state tuple
`[location - 1, trend.value] ++ pickups_counter.values() ++ dropoffs_counter.values()`. -/
def _get_state (s : AlgoState) : List ℤ :=
  let pickups_counter := fillAndClampCounter
    (pyCounter ((s.tasks.filter fun t => decide (t.task_type = TaskType.PICKUP)).map
      fun t => t.floor - 1)) s.max_floor
  let dropoffs_counter := fillAndClampCounter
    (pyCounter ((s.tasks.filter fun t => decide (t.task_type = TaskType.DROPOFF)).map
      fun t => t.floor - 1)) s.max_floor
  [_discreet_elevator_location s.elevator_location - 1,
    ((_direction_trend s.request_direction_times).value : ℤ)]
    ++ pickups_counter.map (fun p => (p.2 : ℤ))
    ++ dropoffs_counter.map (fun p => (p.2 : ℤ))

/-- `_last_action_reward` (source lines 161-168).  `last_action_ts` is passed
explicitly (in the source it is read from `self`; it is always a real
timestamp when this method is reached, because the caller's guard requires a
pending decision). -/
def _last_action_reward (current_timestamp la : ℚ) (regs : List (ℕ × ℚ)) : ℚ :=
  let rider_registrations := regs.map Prod.snd
  let reward := -1 * (((rider_registrations.filter fun x => decide (x ≥ la)).map
    fun x => current_timestamp - x).sum)
  reward

/-- `np.max` over a (nonempty in the source) 1-D slice; the empty case is
unreachable there and given a junk value. -/
def npMax : List ℚ → ℚ
  | [] => 0
  | x :: xs => xs.foldl max x

/-- `np.argmax`: the index of the first occurrence of the maximum value. -/
def npArgmax (l : List ℚ) : ℕ :=
  l.indexOf (npMax l)

/-- The 1-D slice `self.q_table[current_state]` of the Q table: the vector of
values over the action axis `0 .. max_floor - 1`. -/
def actionValues (q : List ℤ → ℚ) (st : List ℤ) (max_floor : ℕ) : List ℚ :=
  (List.range max_floor).map fun a => q (st ++ [(a : ℤ)])

/-- The explore-or-exploit choice of `_get_next_floor_tasks` (source lines
179-186): exploit via `np.argmax(self.q_table[current_state])` when the draw
exceeds epsilon, otherwise pick a random member of
`list(set(x.floor - 1 for x in tasks))` (the oracle's `pick` models
`np.random.choice`; `List.dedup` models the `set`, whose iteration order is
irrelevant because `pick` is arbitrary). -/
def chosenAction (o : Oracle) (s : AlgoState) (current_state : List ℤ) : ℤ :=
  if o.draw > s.epsilon then
    ((npArgmax (actionValues s.q_table current_state s.max_floor) : ℕ) : ℤ)
  else
    o.pick ((s.tasks.map fun t => t.floor - 1).dedup)

/-- The Q-value update block of `_get_next_floor_tasks` (source lines
191-198), given the pending `(state, action)` index `prev` and its timestamp
`la`: `reward`, `max_current_q`, `previous_q` and `updated_q` as in the
source, then the single-entry assignment `q_table[prev] = updated_q`. -/
def applyQUpdate (s : AlgoState) (prev : List ℤ) (la : ℚ) (current_state : List ℤ) : AlgoState :=
  let reward := _last_action_reward s.current_timestamp la s.rider_registration_ts
  let max_current_q := npMax (actionValues s.q_table current_state s.max_floor)
  let previous_q := s.q_table prev
  let updated_q := (1 - s.learning_rate) * previous_q
    + s.learning_rate * (reward + DISCOUNT * max_current_q)
  { s with q_table := fun idx => if idx = prev then updated_q else s.q_table idx }

/-- The guarded update of `_get_next_floor_tasks` (source lines 188-198):
update only if a previous state/action pair exists and its timestamp differs
from the current timestamp. -/
def updateStep (s : AlgoState) (current_state : List ℤ) : AlgoState :=
  match s.pending with
  | some (prev, la) =>
      if la ≠ s.current_timestamp then applyQUpdate s prev la current_state else s
  | none => s

/-- `_get_next_floor_tasks` (source lines 170-208): the full decision cycle.
Returns the successor state together with the floor queue. -/
def _get_next_floor_tasks (o : Oracle) (s : AlgoState) : AlgoState × List ℤ :=
  if s.tasks = [] then (s, [])
  else
    let current_state := _get_state s
    let current_action := chosenAction o s current_state
    let s1 := updateStep s current_state
    let s2 := { s1 with pending := some (current_state ++ [current_action], s.current_timestamp) }
    let next_floor := current_action + 1
    (s2, next_floor :: ((s.tasks.filter fun t => decide (¬ t.floor = next_floor)).map
      fun t => t.floor))

/-- Errors the report methods can raise: `indexError` is Python's
`IndexError: list index out of range` from `[...][0]` on an empty list
(source lines 224, 229); `keyError` is the `KeyError` a `del` on a missing
dict key would raise (source line 234).  Both carry no payload, exactly like
the raising expressions in the source. -/
inductive PyError where
  | indexError
  | keyError
deriving DecidableEq

/-- Python `list.remove`: drop the first element equal to `t`.  (The source
removes the exact object found by the filter; since that object is the first
list element satisfying the filter and object equality refines structural
equality here, removing the first structurally equal element is faithful.) -/
def pyRemoveFirst (t : Task) : List Task → List Task
  | [] => []
  | x :: xs => if x = t then xs else x :: pyRemoveFirst t xs

/-- `report_rider_pickup` (source lines 223-226): take the first pending
PICKUP task of the rider (IndexError if none), remove it, and run the
decision cycle. -/
def report_rider_pickup (o : Oracle) (rider_id : ℕ) (s : AlgoState) :
    Except PyError (AlgoState × List ℤ) :=
  match s.tasks.filter (fun a => decide (a.rider_id = rider_id)
      && decide (a.task_type = TaskType.PICKUP)) with
  | [] => Except.error PyError.indexError
  | t :: _ =>
      Except.ok (_get_next_floor_tasks o { s with tasks := pyRemoveFirst t s.tasks })

/-- `report_rider_dropoff` (source lines 228-235): take the first pending
DROPOFF task of the rider (IndexError if none), remove it, run the decision
cycle, and only afterwards delete the rider's registration timestamp
(KeyError if absent; dict keys are unique, so dropping every pair with that
key models `del`). -/
def report_rider_dropoff (o : Oracle) (rider_id : ℕ) (s : AlgoState) :
    Except PyError (AlgoState × List ℤ) :=
  match s.tasks.filter (fun a => decide (a.rider_id = rider_id)
      && decide (a.task_type = TaskType.DROPOFF)) with
  | [] => Except.error PyError.indexError
  | t :: _ =>
      let r := _get_next_floor_tasks o { s with tasks := pyRemoveFirst t s.tasks }
      if (r.1.rider_registration_ts.map Prod.fst).contains rider_id then
        Except.ok ({ r.1 with rider_registration_ts :=
          r.1.rider_registration_ts.filter fun p => decide (¬ p.1 = rider_id) }, r.2)
      else Except.error PyError.keyError

/-- Source line 17 (a Python float; the decayed epsilon is a real number, so
the persistence model lives in `ℝ`). -/
noncomputable def MIN_EPSILON : ℝ := 0.05

/-- Source line 16. -/
noncomputable def INITIAL_EPSILON : ℝ := 1

/-- Source line 19. -/
noncomputable def MIN_LEARNING_RATE : ℝ := 0.1

/-- Source line 18. -/
noncomputable def INITIAL_LEARNING_RATE : ℝ := 0.8

/-- The persisted model tuple `(q_table, episode, epsilon, learning_rate)`
(source lines 84, 100). -/
structure ModelParams where
  q_table : List ℤ → ℝ
  episode : ℕ
  epsilon : ℝ
  learning_rate : ℝ

/-- `load_model_from_file` (source lines 82-96), as a function of the stored
tuple: restore the tuple, increment `episode`, and, when the new episode lies
in the decay window, decay epsilon and the learning rate geometrically with
clamping at their floors.  Exponentiation is real (`rpow`), as in Python's
`**` on positive floats. -/
noncomputable def load_model_from_file (stored : ModelParams) : ModelParams :=
  let m := { stored with episode := stored.episode + 1 }
  if ROUND_TO_END_LEARNING_DECAY ≥ m.episode ∧ m.episode ≥ ROUND_TO_START_LEARNING_DECAY then
    let count_rounds_to_decay : ℕ := ROUND_TO_END_LEARNING_DECAY - ROUND_TO_START_LEARNING_DECAY
    let epsilon_decay_factor : ℝ :=
      (MIN_EPSILON / INITIAL_EPSILON) ^ ((1 : ℝ) / (count_rounds_to_decay : ℝ))
    let learning_decay_factor : ℝ :=
      (MIN_LEARNING_RATE / INITIAL_LEARNING_RATE) ^ ((1 : ℝ) / (count_rounds_to_decay : ℝ))
    { m with
      epsilon := max MIN_EPSILON (m.epsilon * epsilon_decay_factor),
      learning_rate := max MIN_LEARNING_RATE (m.learning_rate * learning_decay_factor) }
  else m

/-- A fixed random oracle used by the concrete scenarios below. -/
def oracleEx : Oracle := { draw := 1/2, pick := fun _ => 0 }

/-- A constant Q table used by the concrete scenarios below. -/
def constQ : List ℤ → ℚ := fun _ => -150

/-- Eleven direction records with ascending timestamps: the oldest request is
DOWN, the ten most recent are UP. -/
def c4_failing_records : List DirectionRecord :=
  [⟨0, UpDown.DOWN⟩, ⟨1, UpDown.UP⟩, ⟨2, UpDown.UP⟩, ⟨3, UpDown.UP⟩, ⟨4, UpDown.UP⟩,
   ⟨5, UpDown.UP⟩, ⟨6, UpDown.UP⟩, ⟨7, UpDown.UP⟩, ⟨8, UpDown.UP⟩, ⟨9, UpDown.UP⟩,
   ⟨10, UpDown.UP⟩]

/-- Two floors, elevator at floor 1, no direction history, and three pending
pickups registered at floor 2, floor 2, floor 1 (in that task order). -/
def c5_failing_state : AlgoState :=
  { max_floor := 2, current_timestamp := 0, elevator_location := 1,
    tasks := [⟨1, 2, TaskType.PICKUP⟩, ⟨2, 2, TaskType.PICKUP⟩, ⟨3, 1, TaskType.PICKUP⟩],
    request_direction_times := [], pending := none, rider_registration_ts := [],
    q_table := constQ, episode := 0, epsilon := 1, learning_rate := 4/5 }

/-- One pending pickup with an outstanding pending decision taken at time 0,
current time 1. -/
def c1_example_state : AlgoState :=
  { max_floor := 1, current_timestamp := 1, elevator_location := 1,
    tasks := [⟨1, 1, TaskType.PICKUP⟩],
    request_direction_times := [], pending := some ([9], 0),
    rider_registration_ts := [(1, 0)],
    q_table := constQ, episode := 0, epsilon := 1, learning_rate := 4/5 }

/-- Like `c1_example_state` but with pending index [7]. -/
def c2_example_state : AlgoState :=
  { max_floor := 1, current_timestamp := 1, elevator_location := 1,
    tasks := [⟨1, 1, TaskType.PICKUP⟩],
    request_direction_times := [], pending := some ([7], 0),
    rider_registration_ts := [(1, 0)],
    q_table := constQ, episode := 0, epsilon := 1, learning_rate := 4/5 }

/-- Two tasks on distinct floors, no pending decision. -/
def c7_example_state : AlgoState :=
  { max_floor := 2, current_timestamp := 0, elevator_location := 1,
    tasks := [⟨1, 1, TaskType.PICKUP⟩, ⟨2, 2, TaskType.DROPOFF⟩],
    request_direction_times := [], pending := none, rider_registration_ts := [],
    q_table := constQ, episode := 0, epsilon := 1, learning_rate := 4/5 }

/-- Empty task set with an outstanding pending decision. -/
def c8_example_state : AlgoState :=
  { max_floor := 1, current_timestamp := 1, elevator_location := 1,
    tasks := [],
    request_direction_times := [], pending := some ([0], 0),
    rider_registration_ts := [(1, 0)],
    q_table := constQ, episode := 0, epsilon := 1, learning_rate := 4/5 }

/-- State used for the C10 witness: a pending decision at index [9]. -/
def c10_example_state : AlgoState :=
  { max_floor := 1, current_timestamp := 1, elevator_location := 1,
    tasks := [⟨1, 1, TaskType.PICKUP⟩],
    request_direction_times := [], pending := some ([9], 0),
    rider_registration_ts := [(1, 0)],
    q_table := constQ, episode := 0, epsilon := 1, learning_rate := 4/5 }

/-- A state with no tasks at all: any report call fails its task lookup. -/
def c9_missing_state : AlgoState :=
  { max_floor := 1, current_timestamp := 0, elevator_location := 1,
    tasks := [],
    request_direction_times := [], pending := none, rider_registration_ts := [],
    q_table := constQ, episode := 0, epsilon := 1, learning_rate := 4/5 }

/-- A state where rider 1 holds only a pending DROPOFF task: a pickup report
for rider 1 finds no PICKUP match even though the rider still has a task of
the other kind. -/
def c9_mixed_pickup_state : AlgoState :=
  { max_floor := 2, current_timestamp := 0, elevator_location := 1,
    tasks := [⟨1, 2, TaskType.DROPOFF⟩],
    request_direction_times := [], pending := none, rider_registration_ts := [(1, 0)],
    q_table := constQ, episode := 0, epsilon := 1, learning_rate := 4/5 }

/-- A state where rider 1 holds only a pending PICKUP task: a dropoff report
for rider 1 finds no DROPOFF match even though the rider still has a task of
the other kind. -/
def c9_mixed_dropoff_state : AlgoState :=
  { max_floor := 2, current_timestamp := 0, elevator_location := 1,
    tasks := [⟨1, 2, TaskType.PICKUP⟩],
    request_direction_times := [], pending := none, rider_registration_ts := [(1, 0)],
    q_table := constQ, episode := 0, epsilon := 1, learning_rate := 4/5 }

/-- A stored model tuple whose next episode (5) lies inside the decay window. -/
noncomputable def c6_model : ModelParams :=
  { q_table := fun _ => 0, episode := 4, epsilon := 1, learning_rate := 0.8 }

theorem updateStep_of_none (s : AlgoState) (cs : List ℤ) (h : s.pending = none) :
    updateStep s cs = s := by
  simp [updateStep, h]

theorem updateStep_of_same_ts (s : AlgoState) (cs : List ℤ) (p : List ℤ) (la : ℚ)
    (h : s.pending = some (p, la)) (h2 : la = s.current_timestamp) :
    updateStep s cs = s := by
  simp [updateStep, h, h2]

theorem updateStep_of_update (s : AlgoState) (cs : List ℤ) (p : List ℤ) (la : ℚ)
    (h : s.pending = some (p, la)) (h2 : ¬ la = s.current_timestamp) :
    updateStep s cs = applyQUpdate s p la cs := by
  simp [updateStep, h, h2]

theorem applyQUpdate_q_table (s : AlgoState) (p : List ℤ) (la : ℚ) (cs : List ℤ) :
    (applyQUpdate s p la cs).q_table = fun idx =>
      if idx = p then
        (1 - s.learning_rate) * s.q_table p
          + s.learning_rate * (_last_action_reward s.current_timestamp la s.rider_registration_ts
            + DISCOUNT * npMax (actionValues s.q_table cs s.max_floor))
      else s.q_table idx := rfl

theorem updateStep_frame (s : AlgoState) (cs : List ℤ) :
    (updateStep s cs).max_floor = s.max_floor
    ∧ (updateStep s cs).current_timestamp = s.current_timestamp
    ∧ (updateStep s cs).elevator_location = s.elevator_location
    ∧ (updateStep s cs).tasks = s.tasks
    ∧ (updateStep s cs).request_direction_times = s.request_direction_times
    ∧ (updateStep s cs).pending = s.pending
    ∧ (updateStep s cs).rider_registration_ts = s.rider_registration_ts
    ∧ (updateStep s cs).episode = s.episode
    ∧ (updateStep s cs).epsilon = s.epsilon
    ∧ (updateStep s cs).learning_rate = s.learning_rate := by
  unfold updateStep
  cases hp : s.pending with
  | none => simp [hp]
  | some pa =>
    obtain ⟨p, la⟩ := pa
    by_cases h : la = s.current_timestamp
    · simp [h, hp]
    · simp [h, hp, applyQUpdate]

theorem get_next_floor_tasks_of_ne_nil (o : Oracle) (s : AlgoState) (h : ¬ s.tasks = []) :
    _get_next_floor_tasks o s =
      ({ updateStep s (_get_state s) with
          pending := some (_get_state s ++ [chosenAction o s (_get_state s)],
            s.current_timestamp) },
        (chosenAction o s (_get_state s) + 1) ::
          ((s.tasks.filter fun t =>
              decide (¬ t.floor = chosenAction o s (_get_state s) + 1)).map
            fun t => t.floor)) := by
  simp [_get_next_floor_tasks, h]

theorem get_next_tasks (o : Oracle) (s : AlgoState) :
    (_get_next_floor_tasks o s).1.tasks = s.tasks := by
  by_cases h : s.tasks = []
  · simp [_get_next_floor_tasks, h]
  · rw [get_next_floor_tasks_of_ne_nil o s h]
    exact (updateStep_frame s (_get_state s)).2.2.2.1

theorem get_next_current_timestamp (o : Oracle) (s : AlgoState) :
    (_get_next_floor_tasks o s).1.current_timestamp = s.current_timestamp := by
  by_cases h : s.tasks = []
  · simp [_get_next_floor_tasks, h]
  · rw [get_next_floor_tasks_of_ne_nil o s h]
    exact (updateStep_frame s (_get_state s)).2.1

theorem get_next_q_table (o : Oracle) (s : AlgoState) (h : ¬ s.tasks = []) :
    (_get_next_floor_tasks o s).1.q_table = (updateStep s (_get_state s)).q_table := by
  rw [get_next_floor_tasks_of_ne_nil o s h]

theorem get_next_pending (o : Oracle) (s : AlgoState) (h : ¬ s.tasks = []) :
    (_get_next_floor_tasks o s).1.pending
      = some (_get_state s ++ [chosenAction o s (_get_state s)], s.current_timestamp) := by
  rw [get_next_floor_tasks_of_ne_nil o s h]

/-- Claim C1: in a decision cycle over a nonempty task set, a Q-table update is
performed if and only if a pending decision exists and its recorded timestamp
differs from the current timestamp.  With no pending decision (the first
decision of a run) the table is untouched; with an identical timestamp it is
untouched; with a differing timestamp it receives exactly the source's update
block (`applyQUpdate`).  Moreover a second decision cycle, run right after a
first one while the current timestamp is unchanged, never updates the table. -/
theorem c1_update_guard (o o₂ : Oracle) (s : AlgoState) (h : s.tasks ≠ []) :
    (s.pending = none → (_get_next_floor_tasks o s).1.q_table = s.q_table)
    ∧ (∀ p la, s.pending = some (p, la) → la = s.current_timestamp →
        (_get_next_floor_tasks o s).1.q_table = s.q_table)
    ∧ (∀ p la, s.pending = some (p, la) → la ≠ s.current_timestamp →
        (_get_next_floor_tasks o s).1.q_table = (applyQUpdate s p la (_get_state s)).q_table)
    ∧ (_get_next_floor_tasks o₂ (_get_next_floor_tasks o s).1).1.q_table
        = (_get_next_floor_tasks o s).1.q_table := by
  refine ⟨?_, ?_, ?_, ?_⟩
  · intro hp
    rw [get_next_q_table o s h, updateStep_of_none s _ hp]
  · intro p la hp h2
    rw [get_next_q_table o s h, updateStep_of_same_ts s _ p la hp h2]
  · intro p la hp h2
    rw [get_next_q_table o s h, updateStep_of_update s _ p la hp h2]
  · have hT : ¬ (_get_next_floor_tasks o s).1.tasks = [] := by
      rw [get_next_tasks o s]; exact h
    rw [get_next_q_table o₂ _ hT,
      updateStep_of_same_ts _ _ _ _ (get_next_pending o s h)
        (get_next_current_timestamp o s).symm]

/-- Claim C1 witness: a concrete state with a pending decision taken at time 0
and current time 1 gets the update, and a repeat cycle at the same timestamp
leaves the table alone. -/
theorem c1_update_guard_witness :
    c1_example_state.tasks ≠ []
    ∧ (_get_next_floor_tasks oracleEx c1_example_state).1.q_table
        = (applyQUpdate c1_example_state [9] 0 (_get_state c1_example_state)).q_table
    ∧ (_get_next_floor_tasks oracleEx
          (_get_next_floor_tasks oracleEx c1_example_state).1).1.q_table
        = (_get_next_floor_tasks oracleEx c1_example_state).1.q_table :=
  ⟨by decide,
    (c1_update_guard oracleEx oracleEx c1_example_state (by decide)).2.2.1 [9] 0 rfl
      (by decide),
    (c1_update_guard oracleEx oracleEx c1_example_state (by decide)).2.2.2⟩

/-- Claim C2: when the update guard holds, the decision cycle replaces the
Q-table entry at the pending (state, action) index by
(1 - learning_rate) * Q[prev] + learning_rate * (reward + 0.99 * max_a Q[current, a]),
with reward given by `_last_action_reward`, and leaves every other entry
unchanged. -/
theorem c2_q_update_formula (o : Oracle) (s : AlgoState) (p : List ℤ) (la : ℚ)
    (h : s.tasks ≠ []) (hp : s.pending = some (p, la)) (hla : la ≠ s.current_timestamp) :
    ((_get_next_floor_tasks o s).1.q_table p
      = (1 - s.learning_rate) * s.q_table p
        + s.learning_rate *
          (_last_action_reward s.current_timestamp la s.rider_registration_ts
            + (0.99 : ℚ) * npMax (actionValues s.q_table (_get_state s) s.max_floor)))
    ∧ ∀ idx, idx ≠ p → (_get_next_floor_tasks o s).1.q_table idx = s.q_table idx := by
  constructor
  · rw [get_next_q_table o s h, updateStep_of_update s _ p la hp hla,
      applyQUpdate_q_table]
    simp [DISCOUNT]
  · intro idx hidx
    rw [get_next_q_table o s h, updateStep_of_update s _ p la hp hla,
      applyQUpdate_q_table]
    simp [hidx]

/-- Claim C2 witness: the update formula and the untouched-entry property at a
concrete state with pending index [7]. -/
theorem c2_q_update_formula_witness :
    ((_get_next_floor_tasks oracleEx c2_example_state).1.q_table [7]
      = (1 - c2_example_state.learning_rate) * c2_example_state.q_table [7]
        + c2_example_state.learning_rate *
          (_last_action_reward c2_example_state.current_timestamp 0
              c2_example_state.rider_registration_ts
            + (0.99 : ℚ) * npMax (actionValues c2_example_state.q_table
                (_get_state c2_example_state) c2_example_state.max_floor)))
    ∧ (_get_next_floor_tasks oracleEx c2_example_state).1.q_table [9]
        = c2_example_state.q_table [9] :=
  ⟨(c2_q_update_formula oracleEx c2_example_state [7] 0 (by decide) rfl (by decide)).1,
    (c2_q_update_formula oracleEx c2_example_state [7] 0 (by decide) rfl (by decide)).2
      [9] (by decide)⟩

/-- Claim C3: the reward is the negated sum of (current_timestamp - registration)
over exactly the riders in the registration map whose registration is at or
after `last_action_ts`; riders registered strictly before contribute nothing
(their indicator term is 0). -/
theorem c3_reward_formula (now la : ℚ) (regs : List (ℕ × ℚ)) :
    _last_action_reward now la regs
      = -(((regs.map fun r => if la ≤ r.2 then now - r.2 else 0)).sum) := by
  simp only [_last_action_reward]
  induction regs with
  | nil => simp
  | cons r rs ih =>
    by_cases hr : la ≤ r.2
    · have hdec : decide (r.2 ≥ la) = true := decide_eq_true hr
      simp only [List.map_cons, List.filter_cons, hdec, List.sum_cons, if_pos hr,
        if_true]
      linear_combination ih
    · have hdec : decide (r.2 ≥ la) = false := decide_eq_false hr
      simp only [List.map_cons, List.filter_cons, hdec, Bool.false_eq_true,
        List.sum_cons, if_neg hr, if_false]
      linear_combination ih

/-- Claim C4 (code evaluation at the failing input): with eleven direction
records whose ten most recent entries are all UP, the source still returns
UNDETERMINED, because line 119 slices `directions_list[:-10]` and therefore
classifies on everything EXCEPT the most recent ten events.  The second
conjunct certifies that the trailing window of the ten most recent events is
indeed entirely UP, which under the claim would force MOSTLY_UP. -/
theorem c4_direction_trend_eval :
    _direction_trend c4_failing_records = DirectionTrend.UNDETERMINED
    ∧ ((sortByTimestamp c4_failing_records).map fun x => x.direction).drop 1
        = List.replicate 10 UpDown.UP := by
  with_unfolding_all decide

/-- Claim C5 (code evaluation at the failing input): with tasks registered at
floors 2, 2, 1 (in that order) and max_floor = 2, the per-floor pickup counts
appear in Counter insertion order ([2, 1], floor 2's count first), not in the
ascending floor order ([1, 2]) the claim states, so the encoded state is
[0, 2, 2, 1, 0, 0] and not [0, 2, 1, 2, 0, 0]. -/
theorem c5_state_encoding_eval :
    _get_state c5_failing_state = [0, 2, 2, 1, 0, 0]
    ∧ ¬ _get_state c5_failing_state = [0, 2, 1, 2, 0, 0] := by
  with_unfolding_all decide

/-- Claim C6: a load increments the episode counter by one; if the incremented
episode lies in [ROUND_TO_START_LEARNING_DECAY, ROUND_TO_END_LEARNING_DECAY],
epsilon and learning_rate are multiplied by the geometric factor
(floor / initial) ^ (1 / window_length) and clamped below at their floors;
outside the window they are unchanged. -/
theorem c6_load_decay (m : ModelParams) :
    (load_model_from_file m).episode = m.episode + 1
    ∧ (ROUND_TO_START_LEARNING_DECAY ≤ m.episode + 1
        ∧ m.episode + 1 ≤ ROUND_TO_END_LEARNING_DECAY →
        (load_model_from_file m).epsilon
          = max MIN_EPSILON (m.epsilon * ((MIN_EPSILON / INITIAL_EPSILON)
              ^ ((1 : ℝ) /
                ((ROUND_TO_END_LEARNING_DECAY - ROUND_TO_START_LEARNING_DECAY : ℕ) : ℝ))))
        ∧ (load_model_from_file m).learning_rate
          = max MIN_LEARNING_RATE (m.learning_rate *
              ((MIN_LEARNING_RATE / INITIAL_LEARNING_RATE)
                ^ ((1 : ℝ) /
                  ((ROUND_TO_END_LEARNING_DECAY - ROUND_TO_START_LEARNING_DECAY : ℕ) : ℝ)))))
    ∧ (¬ (ROUND_TO_START_LEARNING_DECAY ≤ m.episode + 1
        ∧ m.episode + 1 ≤ ROUND_TO_END_LEARNING_DECAY) →
        (load_model_from_file m).epsilon = m.epsilon
        ∧ (load_model_from_file m).learning_rate = m.learning_rate) := by
  refine ⟨?_, ?_, ?_⟩
  · simp only [load_model_from_file]
    split
    · rfl
    · rfl
  · intro h
    simp only [load_model_from_file]
    rw [if_pos ⟨h.2, h.1⟩]
    exact ⟨rfl, rfl⟩
  · intro h
    simp only [load_model_from_file]
    rw [if_neg fun c => h ⟨c.2, c.1⟩]
    exact ⟨rfl, rfl⟩

/-- Claim C6 witness: loading a stored model at episode 4 (new episode 5, inside
the decay window) increments the counter and applies the clamped geometric
decay to epsilon. -/
theorem c6_load_decay_witness :
    (load_model_from_file c6_model).episode = c6_model.episode + 1
    ∧ (load_model_from_file c6_model).epsilon
        = max MIN_EPSILON (c6_model.epsilon * ((MIN_EPSILON / INITIAL_EPSILON)
            ^ ((1 : ℝ) /
              ((ROUND_TO_END_LEARNING_DECAY - ROUND_TO_START_LEARNING_DECAY : ℕ) : ℝ)))) :=
  ⟨(c6_load_decay c6_model).1, ((c6_load_decay c6_model).2.1 (by decide)).1⟩

/-- Claim C7: on a nonempty task set the returned queue is the chosen floor
first, followed by the floor of every task whose floor differs from the chosen
floor, in task-list order; consequently the floor of every outstanding task
appears in the queue. -/
theorem c7_queue_structure (o : Oracle) (s : AlgoState) (h : s.tasks ≠ []) :
    ((_get_next_floor_tasks o s).2
      = (chosenAction o s (_get_state s) + 1) ::
          ((s.tasks.filter fun t =>
              decide (¬ t.floor = chosenAction o s (_get_state s) + 1)).map
            fun t => t.floor))
    ∧ ∀ t ∈ s.tasks, t.floor ∈ (_get_next_floor_tasks o s).2 := by
  have hr : (_get_next_floor_tasks o s).2
      = (chosenAction o s (_get_state s) + 1) ::
          ((s.tasks.filter fun t =>
              decide (¬ t.floor = chosenAction o s (_get_state s) + 1)).map
            fun t => t.floor) := by
    rw [get_next_floor_tasks_of_ne_nil o s h]
  refine ⟨hr, ?_⟩
  intro t ht
  rw [hr]
  by_cases hf : t.floor = chosenAction o s (_get_state s) + 1
  · rw [hf]
    exact List.mem_cons_self _ _
  · exact List.mem_cons_of_mem _
      (List.mem_map.mpr ⟨t, List.mem_filter.mpr ⟨ht, by simpa using hf⟩, rfl⟩)

/-- Claim C7 witness: the queue structure at a concrete two-task state, and the
fact that floor 2 (held by the DROPOFF task) appears in the returned queue. -/
theorem c7_queue_structure_witness :
    ((_get_next_floor_tasks oracleEx c7_example_state).2
      = (chosenAction oracleEx c7_example_state (_get_state c7_example_state) + 1) ::
          ((c7_example_state.tasks.filter fun t =>
              decide (¬ t.floor = chosenAction oracleEx c7_example_state
                (_get_state c7_example_state) + 1)).map
            fun t => t.floor))
    ∧ (2 : ℤ) ∈ (_get_next_floor_tasks oracleEx c7_example_state).2 :=
  ⟨(c7_queue_structure oracleEx c7_example_state (by decide)).1,
    (c7_queue_structure oracleEx c7_example_state (by decide)).2
      ⟨2, 2, TaskType.DROPOFF⟩ (by decide)⟩

/-- Claim C8: with an empty task set a decision cycle returns an empty floor
queue and leaves the whole dispatcher state (pending decision included)
untouched: no state is encoded, no action chosen, no Q-update performed. -/
theorem c8_empty_tasks (o : Oracle) (s : AlgoState) (h : s.tasks = []) :
    _get_next_floor_tasks o s = (s, []) := by
  simp [_get_next_floor_tasks, h]

/-- Claim C8 witness: a concrete empty-task state with an outstanding pending
decision is returned untouched together with an empty queue. -/
theorem c8_empty_tasks_witness :
    c8_example_state.tasks = []
    ∧ c8_example_state.pending = some ([0], 0)
    ∧ _get_next_floor_tasks oracleEx c8_example_state = (c8_example_state, []) :=
  ⟨rfl, rfl, c8_empty_tasks oracleEx c8_example_state rfl⟩

/-- Claim C9 (amended): per call, reporting a pickup for a rider with no
matching pending PICKUP task fails with an unrecovered error, and reporting a
dropoff for a rider with no matching pending DROPOFF task fails with an
unrecovered error — regardless of any tasks of the other kind the rider may
still hold; the error is in both cases the bare IndexError of `[...][0]` on
an empty filter result, which carries no rider or task-kind information. -/
theorem c9_report_missing_task (o : Oracle) (rider_id : ℕ) (s : AlgoState) :
    (s.tasks.filter (fun a => decide (a.rider_id = rider_id)
        && decide (a.task_type = TaskType.PICKUP)) = [] →
      report_rider_pickup o rider_id s = Except.error PyError.indexError)
    ∧ (s.tasks.filter (fun a => decide (a.rider_id = rider_id)
        && decide (a.task_type = TaskType.DROPOFF)) = [] →
      report_rider_dropoff o rider_id s = Except.error PyError.indexError) := by
  constructor
  · intro hp
    unfold report_rider_pickup
    rw [hp]
  · intro hd
    unfold report_rider_dropoff
    rw [hd]

/-- Claim C9 counterexample: the claim says the signaled error identifies the
missing rider/task-kind pair, but the errors raised for the distinct missing
pairs (rider 42, PICKUP) and (rider 7, DROPOFF) are literally the same bare
IndexError, so the error identifies neither the rider nor the kind. -/
theorem c9_error_counterexample :
    report_rider_pickup oracleEx 42 c9_missing_state = Except.error PyError.indexError
    ∧ report_rider_dropoff oracleEx 7 c9_missing_state = Except.error PyError.indexError
    ∧ report_rider_pickup oracleEx 42 c9_missing_state
        = report_rider_dropoff oracleEx 7 c9_missing_state :=
  ⟨rfl, rfl, rfl⟩

/-- Claim C9 witness, exercising the mixed cases: rider 1 holds only a DROPOFF
task, so reporting a pickup for rider 1 fails; rider 1 holds only a PICKUP
task, so reporting a dropoff for rider 1 fails. -/
theorem c9_report_missing_task_witness :
    report_rider_pickup oracleEx 1 c9_mixed_pickup_state = Except.error PyError.indexError
    ∧ report_rider_dropoff oracleEx 1 c9_mixed_dropoff_state
        = Except.error PyError.indexError :=
  ⟨(c9_report_missing_task oracleEx 1 c9_mixed_pickup_state).1 (by decide),
    (c9_report_missing_task oracleEx 1 c9_mixed_dropoff_state).2 (by decide)⟩

/-- Claim C10: a decision cycle leaves the task list, the rider registration
map, the direction log, epsilon, learning rate, episode counter, max_floor
(which fixes the Q-table shape), current timestamp and elevator location
unchanged, and changes the Q-table at most at the pending (state, action)
index. -/
theorem c10_frame (o : Oracle) (s : AlgoState) :
    (_get_next_floor_tasks o s).1.tasks = s.tasks
    ∧ (_get_next_floor_tasks o s).1.rider_registration_ts = s.rider_registration_ts
    ∧ (_get_next_floor_tasks o s).1.request_direction_times = s.request_direction_times
    ∧ (_get_next_floor_tasks o s).1.epsilon = s.epsilon
    ∧ (_get_next_floor_tasks o s).1.learning_rate = s.learning_rate
    ∧ (_get_next_floor_tasks o s).1.episode = s.episode
    ∧ (_get_next_floor_tasks o s).1.max_floor = s.max_floor
    ∧ (_get_next_floor_tasks o s).1.current_timestamp = s.current_timestamp
    ∧ (_get_next_floor_tasks o s).1.elevator_location = s.elevator_location
    ∧ ∀ idx : List ℤ, (∀ p la, s.pending = some (p, la) → idx ≠ p) →
        (_get_next_floor_tasks o s).1.q_table idx = s.q_table idx := by
  by_cases h : s.tasks = []
  · simp [_get_next_floor_tasks, h]
  · obtain ⟨h1, h2, h3, h4, h5, h6, h7, h8, h9, h10⟩ := updateStep_frame s (_get_state s)
    rw [get_next_floor_tasks_of_ne_nil o s h]
    refine ⟨h4, h7, h5, h9, h10, h8, h1, h2, h3, ?_⟩
    intro idx hidx
    show (updateStep s (_get_state s)).q_table idx = s.q_table idx
    cases hp : s.pending with
    | none => rw [updateStep_of_none s _ hp]
    | some pa =>
      obtain ⟨p, la⟩ := pa
      by_cases hts : la = s.current_timestamp
      · rw [updateStep_of_same_ts s _ p la hp hts]
      · rw [updateStep_of_update s _ p la hp hts, applyQUpdate_q_table]
        simp [hidx p la hp]

/-- Claim C10 witness: at a concrete state with pending index [9], the task
list is preserved and the Q-table entry at the unrelated index [3] is
unchanged. -/
theorem c10_frame_witness :
    (_get_next_floor_tasks oracleEx c10_example_state).1.tasks = c10_example_state.tasks
    ∧ (_get_next_floor_tasks oracleEx c10_example_state).1.q_table [3]
        = c10_example_state.q_table [3] :=
  ⟨(c10_frame oracleEx c10_example_state).1,
    (c10_frame oracleEx c10_example_state).2.2.2.2.2.2.2.2.2 [3]
      (fun p la hpl => by
        have h9 : (some (([9] : List ℤ), (0 : ℚ)) : Option (List ℤ × ℚ))
            = some (p, la) := hpl
        injection h9 with h9a
        injection h9a with h9b h9c
        rw [← h9b]
        decide)⟩

end QElevator
